import Mathlib

/-!
Verification of the normalization / derivation engine of the stock-tracker
scraper (`src/scraper.py`).

Shallow embedding conventions:
* Python floats are modelled as `ℚ` (all numeric literals occurring in the
  data are finite decimals, hence exactly representable).
* A Python value that may be `None` is modelled as `Option _`; `None`
  becomes `none`.
* Python dicts (which preserve insertion order, and on overwrite keep the
  original position of the key) are modelled as insertion-ordered
  association lists `List (String × _)` together with `dictInsert`.
* `float(s)` (on finite decimal literals, with optional sign, decimal
  point and exponent) is modelled by `pyFloat?`; parse failure, i.e. a
  Python `ValueError`, is `none`.
-/

namespace Scraper

/-- Model of Python's `str.strip()`: drop whitespace from both ends.
(Defined by structural list recursion rather than core's `String.trim` so
that terms evaluate definitionally.) -/
def pyStrip (s : String) : String :=
  String.mk (((s.data.dropWhile Char.isWhitespace).reverse.dropWhile
    Char.isWhitespace).reverse)

/-- Model of Python's `str.upper()` (ASCII data). -/
def pyUpper (s : String) : String :=
  String.mk (s.data.map Char.toUpper)

/-- Model of Python's `str.lower()` (ASCII data). -/
def pyLower (s : String) : String :=
  String.mk (s.data.map Char.toLower)

/-- Model of Python's `str.endswith(suffix)`. -/
def pyEndsWith (s suffix : String) : Bool :=
  suffix.data.isSuffixOf s.data

/-- Model of Python's `s.replace(",", "")`: remove every comma. -/
def stripCommas (s : String) : String :=
  String.mk (s.data.filter (fun c => c ≠ ','))

/-- Model of Python's `s[:-1]`: drop the last character. -/
def dropLastChar (s : String) : String :=
  String.mk s.data.dropLast

/-- Numeric value of a list of decimal digit characters (most significant
first), e.g. `['1','2','3'] ↦ 123`. -/
def digitsToNat (l : List Char) : ℕ :=
  l.foldl (fun a c => a * 10 + (c.toNat - '0'.toNat)) 0

/-- Syntactic part of the model of Python's builtin `float()` restricted
to finite decimal literals: optional surrounding whitespace, optional
sign, an integer part and/or a fractional part (at least one digit
overall), and an optional decimal exponent.  Returns the sign flag and
the numerator/denominator of the magnitude
`(intPart.fracPart) · 10^±exp`, and `none` where Python raises
`ValueError` (and on the non-finite literals `nan`/`inf`, which have no
image in `ℚ`). -/
def pyFloatParts? (s : String) : Option (Bool × ℕ × ℕ) :=
  let l := (pyStrip s).data
  let (neg, l1) : Bool × List Char :=
    match l with
    | '+' :: r => (false, r)
    | '-' :: r => (true, r)
    | _        => (false, l)
  let (ip, l2) := l1.span (·.isDigit)
  let (fp, l3) : List Char × List Char :=
    match l2 with
    | '.' :: r => r.span (·.isDigit)
    | _        => ([], l2)
  if ip.isEmpty && fp.isEmpty then none
  else
    let n := digitsToNat ip * 10 ^ fp.length + digitsToNat fp
    let d := 10 ^ fp.length
    match l3 with
    | [] => some (neg, n, d)
    | 'e' :: r | 'E' :: r =>
        let (eneg, r1) : Bool × List Char :=
          match r with
          | '+' :: r2 => (false, r2)
          | '-' :: r2 => (true, r2)
          | _         => (false, r)
        let (ed, r2) := r1.span (·.isDigit)
        if ed.isEmpty || !r2.isEmpty then none
        else if eneg then some (neg, n, d * 10 ^ digitsToNat ed)
        else some (neg, n * 10 ^ digitsToNat ed, d)
    | _ => none

/-- Model of Python's builtin `float()` on finite decimal literals: the
signed rational value of the parsed parts. -/
def pyFloat? (s : String) : Option ℚ :=
  (pyFloatParts? s).map
    (fun p => (if p.1 then -(p.2.1 : ℚ) else (p.2.1 : ℚ)) / (p.2.2 : ℚ))

/-- Round-half-even of a rational to an integer (the rounding used by
Python's fixed-precision float formatting). -/
def rhe (q : ℚ) : ℤ :=
  let f := ⌊q⌋
  let r := q - f
  if r < 1/2 then f
  else if 1/2 < r then f + 1
  else if f % 2 = 0 then f else f + 1

/-- Decimal digit string of `n`, left-padded with zeros to width `w`. -/
def padNat (w : ℕ) (n : ℕ) : String :=
  let s := toString n
  String.mk (List.replicate (w - s.length) '0') ++ s

/-- `fmt_pct` (scraper.py:201-205): format an optional float as a
percentage string with an explicit sign, e.g. `+12.3%`; `None ↦ "-"`.
Python's `f"{value:+.{decimals}f}%"` prints the sign of the value followed
by the absolute value rounded half-to-even to `decimals` places. -/
def fmt_pct (value : Option ℚ) (decimals : ℕ := 1) : String :=
  match value with
  | none => "-"
  | some v =>
    let sign := if v < 0 then "-" else "+"
    let scaled := (rhe (|v| * 10 ^ decimals)).toNat
    sign ++ toString (scaled / 10 ^ decimals) ++ "." ++
      padNat decimals (scaled % 10 ^ decimals) ++ "%"

/-- `calc_yoy` (scraper.py:208-212): YoY % from two optional floats. -/
def calc_yoy (current_val prior_val : Option ℚ) : String :=
  match current_val, prior_val with
  | some c, some p => if p = 0 then "-" else fmt_pct (some ((c - p) / |p| * 100))
  | _, _ => "-"

/-- The placeholder tuple `("-", "nan", "None", "")` used (case-sensitively)
by `parse_market_cap_value` and `safe_get`. -/
def placeholders : List String := ["-", "nan", "None", ""]

/-- `parse_market_cap_value` (scraper.py:42-53): convert `"5.2B"` /
`"1.23T"` / `"850M"` to a float in billions; `none` on placeholders and
parse failure. -/
def parse_market_cap_value (cap_str : String) : Option ℚ :=
  if cap_str = "" ∨ pyStrip cap_str ∈ placeholders then none
  else
    let s := pyUpper (pyStrip cap_str)
    if pyEndsWith s "T" then (pyFloat? (dropLastChar s)).map (· * 1000)
    else if pyEndsWith s "B" then pyFloat? (dropLastChar s)
    else if pyEndsWith s "M" then (pyFloat? (dropLastChar s)).map (· / 1000)
    else (pyFloat? s).map (· / 1000000000)

/-- `get_cap_category` (scraper.py:56-61). -/
def get_cap_category (cap_billions : Option ℚ) : String :=
  match cap_billions with
  | none => "Unknown"
  | some c =>
    if c ≥ 200 then "Mega Cap"
    else if c ≥ 20 then "Large Cap"
    else if c ≥ 2 then "Mid Cap"
    else "Under $2B"

/-- `safe_get` (scraper.py:83-89): first value among the given keys that is
non-empty and whose stripped form is outside the placeholder tuple,
returned stripped; `"-"` if none qualifies. -/
def safe_get (d : List (String × String)) (keys : List String) : String :=
  match keys with
  | [] => "-"
  | k :: ks =>
    let v := ((d.find? (fun p => p.1 == k)).map Prod.snd).getD ""
    if v ≠ "" ∧ pyStrip v ∉ placeholders then pyStrip v else safe_get d ks

/-- Boolean contiguous-sublist test on character lists; `listInfix n h`
models Python's `n in h` on strings (after `toList`). -/
def listInfix (needle : List Char) : List Char → Bool
  | [] => needle.isEmpty
  | c :: t => needle.isPrefixOf (c :: t) || listInfix needle t

/-- `find_row` (scraper.py:163-170): for each candidate label in order,
return the values of the first key of the (insertion-ordered) row map
whose lowercase form contains the candidate's lowercase form. -/
def find_row (row_map : List (String × List String)) :
    List String → Option (List String)
  | [] => none
  | c :: cs =>
    match row_map.find? (fun p => listInfix (pyLower c).data (pyLower p.1).data) with
    | some p => some p.2
    | none => find_row row_map cs

/-- Python-dict insertion: on an existing key the value is replaced at the
key's original position, otherwise the pair is appended. -/
def dictInsert (m : List (String × List String)) (k : String) (v : List String) :
    List (String × List String) :=
  if m.any (fun p => p.1 == k) then
    m.map (fun p => if p.1 == k then (k, v) else p)
  else m ++ [(k, v)]

/-- A Finviz AJAX statement payload: `{"headers": [...], "data": [[...],...]}`.
`none` at use sites stands for Python `None` or a falsy (empty) dict. -/
structure AjaxData where
  headers : List String
  data : List (List String)

/-- `ajax_row_map` (scraper.py:145-160): label → cleaned values; rows with
fewer than 2 cells are skipped; commas stripped and whitespace trimmed. -/
def ajax_row_map (data : Option AjaxData) : List (String × List String) :=
  match data with
  | none => []
  | some d =>
    d.data.foldl
      (fun result row =>
        if 2 ≤ row.length then
          dictInsert result (pyStrip (row.headD ""))
            (row.tail.map (fun v => pyStrip (stripCommas v)))
        else result)
      []

/-- One step of `first_numeric`'s scan (scraper.py:177-183): strip the
token; skip it when it is empty or in `("-", "N/A", "")`, and otherwise
attempt the float parse, skipping on `ValueError`. -/
def numTok (v : String) : Option ℚ :=
  let w := pyStrip v
  if w ≠ "" ∧ w ∉ ["-", "N/A", ""] then pyFloat? w else none

/-- `first_numeric` (scraper.py:173-184): first token of the list that
parses as a float, skipping placeholders and unparsable tokens. -/
def first_numeric : List String → Option ℚ
  | [] => none
  | v :: vs =>
    match numTok v with
    | some x => some x
    | none => first_numeric vs

/-- `last_numeric` (scraper.py:187-198): same scan over `reversed(vals)`. -/
def last_numeric (vals : List String) : Option ℚ :=
  first_numeric vals.reverse

/-- Attempt to match the regex `-?\d+\.?\d*%` at the head of the
character list, returning the matched characters and the remainder.
The pattern is deterministic here: an optional `-`, a maximal nonempty
run of digits, an optional `.`, a maximal (possibly empty) run of digits,
then a mandatory `%`.  (Backtracking of `\d+`/`\d*` can never recover a
failed match: the character each retry would have to accept as `%` is a
digit or `.`.) -/
def matchPctAt (l : List Char) : Option (List Char × List Char) :=
  let sign : List Char := if l.head? = some '-' then ['-'] else []
  let l1 : List Char := if l.head? = some '-' then l.tail else l
  let ds1 := l1.takeWhile (·.isDigit)
  let l2 := l1.dropWhile (·.isDigit)
  if ds1.isEmpty then none
  else
    let dot : List Char := if l2.head? = some '.' then ['.'] else []
    let l3 : List Char := if l2.head? = some '.' then l2.tail else l2
    let ds2 := l3.takeWhile (·.isDigit)
    let l4 := l3.dropWhile (·.isDigit)
    if l4.head? = some '%' then some (sign ++ ds1 ++ dot ++ ds2 ++ ['%'], l4.tail)
    else none

/-- Fuelled scan implementing `re.findall(r"-?\d+\.?\d*%", ·)`: leftmost
non-overlapping matches, continuing after each match. -/
def findallPctAux : ℕ → List Char → List String
  | 0, _ => []
  | _ + 1, [] => []
  | fuel + 1, c :: cs =>
    match matchPctAt (c :: cs) with
    | some (tok, rest) => String.mk tok :: findallPctAux fuel rest
    | none => findallPctAux fuel cs

/-- `re.findall(r"-?\d+\.?\d*%", s)` (scraper.py:389). -/
def findallPct (s : String) : List String :=
  findallPctAux s.data.length s.data

/-- The normalized display record produced by `build_stock_record`
(scraper.py:393-409); one field per key of the returned dict. -/
structure StockRecord where
  ticker : String
  market_cap : String
  cap_category : String
  next_earnings : String
  eps_yy_ttm : String
  sales_yy_ttm : String
  eps_q_rep : String
  sales_q_rep : String
  eps_surpr : String
  sales_surpr : String
  avg_target_price : String
deriving DecidableEq, Repr

/-- The raw per-ticker input `{"ticker": ..., "fundament": {...}}`
assembled by `scrape_all_tickers` (scraper.py:353). -/
structure RawRecord where
  ticker : String
  fundament : List (String × String)

/-- `build_stock_record` (scraper.py:360-409). -/
def build_stock_record (raw : RawRecord) : StockRecord :=
  let fund := raw.fundament
  let cap_str := safe_get fund ["Market Cap"]
  let cap_val := parse_market_cap_value cap_str
  let cap_category := get_cap_category cap_val
  let surpr_raw := safe_get fund ["EPS/Sales Surpr."]
  let tokens := if surpr_raw ≠ "" ∧ surpr_raw ∉ ["-", ""] then findallPct surpr_raw else []
  { ticker := raw.ticker
    market_cap := cap_str
    cap_category := cap_category
    next_earnings := safe_get fund ["Earnings"]
    eps_yy_ttm := safe_get fund ["EPS Y/Y TTM"]
    sales_yy_ttm := safe_get fund ["Sales Y/Y TTM"]
    eps_q_rep := safe_get fund ["EPS Q/Q"]
    sales_q_rep := safe_get fund ["Sales Q/Q"]
    eps_surpr := (tokens.get? 0).getD "-"
    sales_surpr := (tokens.get? 1).getD "-"
    avg_target_price := safe_get fund ["Target Price"] }

/-- Output of `parse_annual_income` (scraper.py:228-229), initialised to
all `"-"`. -/
structure AnnualOut where
  eps_yy_ttm : String := "-"
  rev_ann_rep : String := "-"
  rev_ann_est_cur : String := "-"
  rev_ann_est_fut : String := "-"
deriving DecidableEq, Repr

/-- The estimate flags of `parse_annual_income` (scraper.py:233-235):
drop the leading blank header, strip, and test for a case-insensitive
trailing `E`. -/
def estFlags (headers : List String) : List Bool :=
  ((headers.drop 1).map pyStrip).map (fun h => pyEndsWith (pyUpper h) "E")

/-- The comprehension
`[first_numeric([v]) for i, v in enumerate(row) if i < len(is_est) and is_est[i] == flag]`
(scraper.py:250-253, 262-263): positionally align the row with the
column-classification flags (extra cells on either side are dropped),
keep the positions classified as `flag`, and coerce each kept cell. -/
def selVals (row : List String) (is_est : List Bool) (flag : Bool) : List (Option ℚ) :=
  ((row.zip is_est).filter (fun p => p.2 == flag)).map (fun p => first_numeric [p.1])

/-- The revenue block of `parse_annual_income` (scraper.py:249-259),
producing `(rev_ann_rep, rev_ann_est_cur, rev_ann_est_fut)`; it reads
nothing but the resolved revenue row and the estimate flags. -/
def annualRevFields (rev_row : Option (List String)) (is_est : List Bool) :
    String × String × String :=
  match rev_row with
  | none => ("-", "-", "-")
  | some rrow =>
    if rrow.isEmpty then ("-", "-", "-")
    else
      let rep_vals := selVals rrow is_est false
      let est_vals := selVals rrow is_est true
      ( if 2 ≤ rep_vals.length then
          calc_yoy ((rep_vals.get? (rep_vals.length - 1)).join)
                   ((rep_vals.get? (rep_vals.length - 2)).join)
        else "-",
        if ¬rep_vals.isEmpty ∧ ¬est_vals.isEmpty then
          calc_yoy ((est_vals.get? 0).join)
                   ((rep_vals.get? (rep_vals.length - 1)).join)
        else "-",
        if 2 ≤ est_vals.length then
          calc_yoy ((est_vals.get? 1).join) ((est_vals.get? 0).join)
        else "-" )

/-- The EPS block of `parse_annual_income` (scraper.py:261-265); it reads
nothing but the resolved EPS row and the estimate flags. -/
def annualEpsField (eps_row : Option (List String)) (is_est : List Bool) : String :=
  match eps_row with
  | none => "-"
  | some erow =>
    if erow.isEmpty then "-"
    else
      let rep_vals := selVals erow is_est false
      if 2 ≤ rep_vals.length then
        calc_yoy ((rep_vals.get? (rep_vals.length - 1)).join)
                 ((rep_vals.get? (rep_vals.length - 2)).join)
      else "-"

/-- `parse_annual_income` (scraper.py:217-267). -/
def parse_annual_income (data : Option AjaxData) : AnnualOut :=
  match data with
  | none => {}
  | some d =>
    let is_est := estFlags d.headers
    let row_map := ajax_row_map (some d)
    let rev_row := find_row row_map ["Revenue", "Total Revenue", "Sales"]
    let eps_row := find_row row_map ["EPS", "Earnings Per Share"]
    let rv := annualRevFields rev_row is_est
    { eps_yy_ttm := annualEpsField eps_row is_est
      rev_ann_rep := rv.1
      rev_ann_est_cur := rv.2.1
      rev_ann_est_fut := rv.2.2 }

/-- Shape of a `%` token after the optional minus sign: one or more
digits, an optional decimal point and further digits, and a terminating
percent sign with nothing after it. -/
def pctBody (l1 : List Char) : Bool :=
  let d1 := l1.takeWhile (·.isDigit)
  let r1 := l1.dropWhile (·.isDigit)
  !d1.isEmpty &&
    (let r2 := if r1.head? = some '.' then r1.tail else r1
     r2.dropWhile (·.isDigit) == ['%'])

/-- Decidable statement of the token pattern `-?\d+\.?\d*%`: an optional
leading minus sign, one or more digits, an optional decimal point and
further digits, and a terminating percent sign with nothing after it. -/
def isPctShape (l : List Char) : Bool :=
  pctBody (if l.head? = some '-' then l.tail else l)

/-! ## Theorems -/

/-- Projection of the builder's `cap_category` wiring. -/
theorem build_cap_category_eq (r : RawRecord) :
    (build_stock_record r).cap_category =
      get_cap_category (parse_market_cap_value (safe_get r.fundament ["Market Cap"])) :=
  rfl

/-- Projection of the builder's `eps_yy_ttm` wiring. -/
theorem build_eps_yy_eq (r : RawRecord) :
    (build_stock_record r).eps_yy_ttm = safe_get r.fundament ["EPS Y/Y TTM"] :=
  rfl

/-- Projection of the builder's surprise-field wiring: both surprise
fields come from the `%`-token scan of the raw compound field, guarded
exactly as in the source. -/
theorem build_surpr_eq (r : RawRecord) :
    (build_stock_record r).eps_surpr =
      (((if safe_get r.fundament ["EPS/Sales Surpr."] ≠ "" ∧
            safe_get r.fundament ["EPS/Sales Surpr."] ∉ ["-", ""] then
          findallPct (safe_get r.fundament ["EPS/Sales Surpr."]) else []).get? 0).getD "-") ∧
    (build_stock_record r).sales_surpr =
      (((if safe_get r.fundament ["EPS/Sales Surpr."] ≠ "" ∧
            safe_get r.fundament ["EPS/Sales Surpr."] ∉ ["-", ""] then
          findallPct (safe_get r.fundament ["EPS/Sales Surpr."]) else []).get? 1).getD "-") :=
  ⟨rfl, rfl⟩

/-- Reduction of the `fundament` projection on a literal raw record. -/
theorem rawRecord_fundament (t : String) (f : List (String × String)) :
    (RawRecord.mk t f).fundament = f :=
  rfl

/-- Unfolding of `pyFloat?` through its syntactic part. -/
theorem pyFloat?_eq_map (s : String) :
    pyFloat? s = (pyFloatParts? s).map
      (fun p => (if p.1 then -(p.2.1 : ℚ) else (p.2.1 : ℚ)) / (p.2.2 : ℚ)) :=
  rfl

/-- C1: for every input `{"ticker": t, "fundament": f}` the record builder
is total (the Lean embedding is a total function into the fixed
eleven-field `StockRecord` shape, so every key is always present and
absence can only be the literal `"-"`), the ticker field always echoes
`t`, and on the empty snapshot every field is `"-"` except `ticker = t`
and `cap_category = "Unknown"`. -/
theorem build_stock_record_total_and_empty (t : String) (f : List (String × String)) :
    (build_stock_record ⟨t, f⟩).ticker = t ∧
    build_stock_record ⟨t, []⟩ =
      { ticker := t, market_cap := "-", cap_category := "Unknown",
        next_earnings := "-", eps_yy_ttm := "-", sales_yy_ttm := "-",
        eps_q_rep := "-", sales_q_rep := "-", eps_surpr := "-",
        sales_surpr := "-", avg_target_price := "-" } := by
  constructor
  · rfl
  · rfl

/-- C2: the snapshot with market cap `"3907.83B"`, EPS Y/Y TTM `"25.58%"`
and compound surprise `"6.24%3.88%"` yields cap category `"Mega Cap"`,
`eps_yy_ttm = "25.58%"`, `eps_surpr = "6.24%"`, `sales_surpr = "3.88%"`,
for any ticker. -/
theorem build_stock_record_scenario (t : String) :
    (build_stock_record ⟨t, [("Market Cap", "3907.83B"), ("EPS Y/Y TTM", "25.58%"),
        ("EPS/Sales Surpr.", "6.24%3.88%")]⟩).cap_category = "Mega Cap" ∧
    (build_stock_record ⟨t, [("Market Cap", "3907.83B"), ("EPS Y/Y TTM", "25.58%"),
        ("EPS/Sales Surpr.", "6.24%3.88%")]⟩).eps_yy_ttm = "25.58%" ∧
    (build_stock_record ⟨t, [("Market Cap", "3907.83B"), ("EPS Y/Y TTM", "25.58%"),
        ("EPS/Sales Surpr.", "6.24%3.88%")]⟩).eps_surpr = "6.24%" ∧
    (build_stock_record ⟨t, [("Market Cap", "3907.83B"), ("EPS Y/Y TTM", "25.58%"),
        ("EPS/Sales Surpr.", "6.24%3.88%")]⟩).sales_surpr = "3.88%" := by
  refine ⟨?_, ?_, ?_, ?_⟩
  · rw [build_cap_category_eq]
    simp only [rawRecord_fundament]
    have h1 : safe_get [("Market Cap", "3907.83B"), ("EPS Y/Y TTM", "25.58%"),
        ("EPS/Sales Surpr.", "6.24%3.88%")] ["Market Cap"] = "3907.83B" := by decide
    have h2 : pyFloatParts? "3907.83" = some (false, 390783, 100) := by decide
    have h3 : parse_market_cap_value "3907.83B" = pyFloat? "3907.83" := rfl
    rw [h1, h3, pyFloat?_eq_map, h2]
    norm_num [get_cap_category]
  · rw [build_eps_yy_eq]
    simp only [rawRecord_fundament]
    decide
  · rw [(build_surpr_eq _).1]
    simp only [rawRecord_fundament]
    decide
  · rw [(build_surpr_eq _).2]
    simp only [rawRecord_fundament]
    decide

/-- C4: the cap classifier returns one of exactly five labels, with
inclusive lower bounds checked largest tier first, and resolves the
spec's boundary inputs as stated. -/
theorem get_cap_category_spec :
    get_cap_category none = "Unknown" ∧
    (∀ x : ℚ, 200 ≤ x → get_cap_category (some x) = "Mega Cap") ∧
    (∀ x : ℚ, 20 ≤ x → x < 200 → get_cap_category (some x) = "Large Cap") ∧
    (∀ x : ℚ, 2 ≤ x → x < 20 → get_cap_category (some x) = "Mid Cap") ∧
    (∀ x : ℚ, x < 2 → get_cap_category (some x) = "Under $2B") ∧
    (∀ o, get_cap_category o ∈
      ["Unknown", "Mega Cap", "Large Cap", "Mid Cap", "Under $2B"]) ∧
    get_cap_category (some 200) = "Mega Cap" ∧
    get_cap_category (some (19999/100)) = "Large Cap" ∧
    get_cap_category (some 20) = "Large Cap" ∧
    get_cap_category (some (1999/100)) = "Mid Cap" ∧
    get_cap_category (some 2) = "Mid Cap" ∧
    get_cap_category (some (199/100)) = "Under $2B" := by
  have hmega : ∀ x : ℚ, 200 ≤ x → get_cap_category (some x) = "Mega Cap" := by
    intro x h; simp [get_cap_category, h]
  have hlarge : ∀ x : ℚ, 20 ≤ x → x < 200 → get_cap_category (some x) = "Large Cap" := by
    intro x h1 h2
    simp [get_cap_category, h1, not_le.mpr h2]
  have hmid : ∀ x : ℚ, 2 ≤ x → x < 20 → get_cap_category (some x) = "Mid Cap" := by
    intro x h1 h2
    have h3 : ¬ x ≥ 200 := not_le.mpr (by linarith)
    simp [get_cap_category, h1, h3, not_le.mpr h2]
  have hunder : ∀ x : ℚ, x < 2 → get_cap_category (some x) = "Under $2B" := by
    intro x h
    have h2 : ¬ x ≥ 200 := not_le.mpr (by linarith)
    have h3 : ¬ x ≥ 20 := not_le.mpr (by linarith)
    simp [get_cap_category, h2, h3, not_le.mpr h]
  refine ⟨rfl, hmega, hlarge, hmid, hunder, ?_,
    hmega 200 le_rfl, hlarge (19999/100) (by norm_num) (by norm_num),
    hlarge 20 le_rfl (by norm_num), hmid (1999/100) (by norm_num) (by norm_num),
    hmid 2 le_rfl (by norm_num), hunder (199/100) (by norm_num)⟩
  intro o
  match o with
  | none => simp [get_cap_category]
  | some c =>
    rcases le_or_lt 200 c with h | h
    · rw [hmega c h]; simp
    rcases le_or_lt 20 c with h2 | h2
    · rw [hlarge c h2 h]; simp
    rcases le_or_lt 2 c with h3 | h3
    · rw [hmid c h3 h2]; simp
    · rw [hunder c h3]; simp

/-- C4 witness: the tier theorems applied at concrete magnitudes. -/
theorem get_cap_category_spec_witness :
    get_cap_category (some 250) = "Mega Cap" ∧
    get_cap_category (some 50) = "Large Cap" ∧
    get_cap_category (some 5) = "Mid Cap" ∧
    get_cap_category (some 1) = "Under $2B" :=
  ⟨get_cap_category_spec.2.1 250 (by norm_num),
   get_cap_category_spec.2.2.1 50 (by norm_num) (by norm_num),
   get_cap_category_spec.2.2.2.1 5 (by norm_num) (by norm_num),
   get_cap_category_spec.2.2.2.2.1 1 (by norm_num)⟩

/-- Helper: prepending the empty string is the identity. -/
theorem string_nil_append (s : String) : String.mk [] ++ s = s := by
  cases s
  rfl

/-- Helper: a single decimal digit needs no padding. -/
theorem padNat_one (n : ℕ) (h : n < 10) : padNat 1 n = toString n := by
  have hlen : (toString n).length = 1 := by interval_cases n <;> rfl
  unfold padNat
  simp only [hlen]
  simp [string_nil_append (toString n)]

/-- C3: the growth calculation returns `"-"` whenever an operand is
absent or the prior is exactly zero, and otherwise formats
`(current - prior) / abs(prior) * 100` with an explicit leading sign
(`+` for non-negative, `-` for negative) and one decimal digit. -/
theorem calc_yoy_spec :
    (∀ p, calc_yoy none p = "-") ∧
    (∀ c, calc_yoy c none = "-") ∧
    (∀ c, calc_yoy c (some 0) = "-") ∧
    (∀ c p : ℚ, p ≠ 0 →
      calc_yoy (some c) (some p) = fmt_pct (some ((c - p) / |p| * 100))) ∧
    (∀ v : ℚ, ∃ n k : ℕ, k < 10 ∧
      fmt_pct (some v) =
        (if v < 0 then "-" else "+") ++ toString n ++ "." ++ toString k ++ "%") := by
  refine ⟨?_, ?_, ?_, ?_, ?_⟩
  · intro p; cases p <;> rfl
  · intro c; cases c <;> rfl
  · intro c; cases c
    · rfl
    · simp [calc_yoy]
  · intro c p hp
    simp [calc_yoy, hp]
  · intro v
    have hk : (rhe (|v| * 10 ^ 1)).toNat % 10 ^ 1 < 10 := Nat.mod_lt _ (by norm_num)
    refine ⟨(rhe (|v| * 10 ^ 1)).toNat / 10 ^ 1,
      (rhe (|v| * 10 ^ 1)).toNat % 10 ^ 1, hk, ?_⟩
    simp only [fmt_pct]
    rw [padNat_one _ hk]

/-- C3 witness: the non-degenerate branch applied at concrete operands,
including a negative prior exercising the `abs` denominator. -/
theorem calc_yoy_spec_witness :
    calc_yoy (some 110) (some 100) = fmt_pct (some (((110 : ℚ) - 100) / |(100 : ℚ)| * 100)) ∧
    calc_yoy (some 105) (some (-100)) =
      fmt_pct (some (((105 : ℚ) - -100) / |(-100 : ℚ)| * 100)) :=
  ⟨calc_yoy_spec.2.2.2.1 110 100 (by norm_num),
   calc_yoy_spec.2.2.2.1 105 (-100) (by norm_num)⟩

/-- C5: the market-cap parser trims and uppercases, scales by suffix
(`T` ↦ ×1000, `B` ↦ as-is, `M` ↦ ÷1000, otherwise ÷1e9), yields absent on
placeholder tokens and numeric-parse failure, and maps the spec's
examples as stated. -/
theorem parse_market_cap_value_spec :
    parse_market_cap_value "1.23T" = some 1230 ∧
    parse_market_cap_value "850M" = some (17 / 20) ∧
    parse_market_cap_value "5.2B" = some (26 / 5) ∧
    parse_market_cap_value "-" = none ∧
    parse_market_cap_value "N/A" = none ∧
    (∀ s : String, pyStrip s ∈ placeholders → parse_market_cap_value s = none) ∧
    (∀ s : String, s ≠ "" → pyStrip s ∉ placeholders →
      parse_market_cap_value s =
        (if pyEndsWith (pyUpper (pyStrip s)) "T" then
          (pyFloat? (dropLastChar (pyUpper (pyStrip s)))).map (· * 1000)
        else if pyEndsWith (pyUpper (pyStrip s)) "B" then
          pyFloat? (dropLastChar (pyUpper (pyStrip s)))
        else if pyEndsWith (pyUpper (pyStrip s)) "M" then
          (pyFloat? (dropLastChar (pyUpper (pyStrip s)))).map (· / 1000)
        else (pyFloat? (pyUpper (pyStrip s))).map (· / 1000000000))) := by
  refine ⟨?_, ?_, ?_, by decide, ?_, ?_, ?_⟩
  · have h2 : pyFloatParts? "1.23" = some (false, 123, 100) := by decide
    have h3 : parse_market_cap_value "1.23T" = (pyFloat? "1.23").map (· * 1000) := rfl
    rw [h3, pyFloat?_eq_map, h2]
    simp
    norm_num
  · have h2 : pyFloatParts? "850" = some (false, 850, 1) := by decide
    have h3 : parse_market_cap_value "850M" = (pyFloat? "850").map (· / 1000) := rfl
    rw [h3, pyFloat?_eq_map, h2]
    simp
    norm_num
  · have h2 : pyFloatParts? "5.2" = some (false, 52, 10) := by decide
    have h3 : parse_market_cap_value "5.2B" = pyFloat? "5.2" := rfl
    rw [h3, pyFloat?_eq_map, h2]
    simp
    norm_num
  · have h2 : pyFloatParts? "N/A" = none := by decide
    have h3 : parse_market_cap_value "N/A" = (pyFloat? "N/A").map (· / 1000000000) := rfl
    rw [h3, pyFloat?_eq_map, h2]
    rfl
  · intro s h
    unfold parse_market_cap_value
    rw [if_pos (Or.inr h)]
  · intro s hne hph
    unfold parse_market_cap_value
    rw [if_neg (by push_neg; exact ⟨hne, hph⟩)]

/-- C5 witness: the placeholder branch at `"nan"` and the `T`-suffix
branch at `"5T"`. -/
theorem parse_market_cap_value_spec_witness :
    parse_market_cap_value "nan" = none ∧
    parse_market_cap_value "5T" =
      (pyFloat? (dropLastChar (pyUpper (pyStrip "5T")))).map (· * 1000) := by
  constructor
  · exact parse_market_cap_value_spec.2.2.2.2.2.1 "nan" (by decide)
  · rw [parse_market_cap_value_spec.2.2.2.2.2.2 "5T" (by decide) (by decide)]
    rw [if_pos (by decide)]

/-- C6: the row resolver tries candidates in priority order, scanning the
map's keys in insertion order and returning the values of the first key
whose lowercase form contains the candidate's lowercase form as a
substring; it is absent when no candidate matches any key; and the
candidates `["Revenue", "Sales"]` resolve against the sole key
`"Total Revenue"`. -/
theorem find_row_spec :
    find_row [("Total Revenue", ["1", "2"])] ["Revenue", "Sales"] = some ["1", "2"] ∧
    (∀ m, find_row m [] = none) ∧
    (∀ m c cs, find_row m (c :: cs) =
      match m.find? (fun p => listInfix (pyLower c).data (pyLower p.1).data) with
      | some p => some p.2
      | none => find_row m cs) ∧
    (∀ m cs,
      (∀ c ∈ cs, ∀ p ∈ m, listInfix (pyLower c).data (pyLower p.1).data = false) →
      find_row m cs = none) := by
  refine ⟨by decide, fun m => rfl, fun m c cs => rfl, ?_⟩
  intro m cs h
  induction cs with
  | nil => rfl
  | cons c cs ih =>
    have hnone : m.find? (fun p => listInfix (pyLower c).data (pyLower p.1).data) = none := by
      rw [List.find?_eq_none]
      intro p hp
      simp [h c (List.mem_cons_self c cs) p hp]
    simp only [find_row, hnone]
    exact ih (fun c' hc' p hp => h c' (List.mem_cons_of_mem c hc') p hp)

/-- C6 witness: a map whose only key matches no candidate resolves to
absent. -/
theorem find_row_spec_witness :
    find_row [("EPS", ["1"])] ["Revenue", "Sales"] = none :=
  find_row_spec.2.2.2 [("EPS", ["1"])] ["Revenue", "Sales"] (by decide)

/-- C8: the directional numeric scans are total by construction and
return the first (resp. last) token that parses as a float — i.e. the
head (resp. last) of the token-wise coercions that succeed — skipping
placeholder and unparsable tokens, and are absent on empty input or when
no entry parses. -/
theorem numeric_scan_spec :
    (∀ vals, first_numeric vals = (vals.filterMap numTok).head?) ∧
    (∀ vals, last_numeric vals = (vals.filterMap numTok).getLast?) ∧
    (∀ v : String, pyStrip v ∈ ["", "-", "N/A", "None"] → numTok v = none) ∧
    numTok "  " = none ∧
    first_numeric [] = none ∧
    last_numeric [] = none ∧
    (∀ vals, (∀ v ∈ vals, numTok v = none) →
      first_numeric vals = none ∧ last_numeric vals = none) := by
  have hfirst : ∀ vals, first_numeric vals = (vals.filterMap numTok).head? := by
    intro vals
    induction vals with
    | nil => rfl
    | cons v vs ih =>
      simp only [first_numeric, List.filterMap_cons]
      cases hv : numTok v with
      | none => simpa [hv] using ih
      | some x => simp [hv]
  have hlast : ∀ vals, last_numeric vals = (vals.filterMap numTok).getLast? := by
    intro vals
    rw [show last_numeric vals = first_numeric vals.reverse from rfl, hfirst,
      List.filterMap_reverse, List.head?_reverse]
  refine ⟨hfirst, hlast, ?_, rfl, rfl, rfl, ?_⟩
  · intro v hv
    simp only [List.mem_cons, List.not_mem_nil, or_false] at hv
    rcases hv with h | h | h | h
    · simp [numTok, h]
    · simp [numTok, h]
    · simp [numTok, h]
    · have : numTok v = pyFloat? "None" := by simp [numTok, h]
      rw [this, pyFloat?_eq_map, show pyFloatParts? "None" = none from by decide]
      rfl
  · intro vals h
    have hnil : vals.filterMap numTok = [] := List.filterMap_eq_nil_iff.mpr h
    rw [hfirst, hlast, hnil]
    exact ⟨rfl, rfl⟩

/-- C8 witness: the placeholder lemma at `"None"` and the all-absent
lemma at a singleton placeholder list. -/
theorem numeric_scan_spec_witness :
    numTok "None" = none ∧
    (first_numeric ["-"] = none ∧ last_numeric ["-"] = none) :=
  ⟨numeric_scan_spec.2.2.1 "None" (by decide),
   numeric_scan_spec.2.2.2.2.2.2 ["-"]
     (fun v hv => by simp only [List.mem_singleton] at hv; subst hv; rfl)⟩

/-- C10: the placeholder checks of `safe_get` and
`parse_market_cap_value` are exact-string case-sensitive comparisons
against `{"-", "nan", "None", ""}`: the exact tokens `"nan"` and
`"None"` are treated as absent (skipped by `safe_get`; absent magnitude,
hence category `"Unknown"`), while the differently-cased `"NaN"` and
`"NONE"` pass the placeholder test and are returned unchanged. -/
theorem placeholder_case_sensitivity :
    safe_get [("Market Cap", "nan")] ["Market Cap"] = "-" ∧
    safe_get [("Market Cap", "None")] ["Market Cap"] = "-" ∧
    safe_get [("Market Cap", "NaN")] ["Market Cap"] = "NaN" ∧
    safe_get [("Market Cap", "NONE")] ["Market Cap"] = "NONE" ∧
    parse_market_cap_value "nan" = none ∧
    parse_market_cap_value "None" = none ∧
    get_cap_category (parse_market_cap_value "nan") = "Unknown" ∧
    get_cap_category (parse_market_cap_value "None") = "Unknown" ∧
    "nan" ∈ placeholders ∧ "None" ∈ placeholders ∧
    "NaN" ∉ placeholders ∧ "NONE" ∉ placeholders := by
  exact ⟨by decide, by decide, by decide, by decide, rfl, rfl, rfl, rfl,
    by decide, by decide, by decide, by decide⟩

/-- Helper: `takeWhile`/`dropWhile` run past a prefix that wholly
satisfies the predicate. -/
theorem takeWhile_append_all {p : Char → Bool} {xs : List Char} (ys : List Char)
    (h : ∀ x ∈ xs, p x = true) :
    (xs ++ ys).takeWhile p = xs ++ ys.takeWhile p ∧
    (xs ++ ys).dropWhile p = ys.dropWhile p := by
  induction xs with
  | nil => simp
  | cons x xs ih =>
    have hx : p x = true := h x (List.mem_cons_self x xs)
    have h2 := ih (fun a ha => h a (List.mem_cons_of_mem x ha))
    simp [List.takeWhile_cons, List.dropWhile_cons, hx, h2.1, h2.2]

/-- Helper: `takeWhile` immediately after `dropWhile` finds nothing. -/
theorem takeWhile_dropWhile_nil (p : Char → Bool) (l : List Char) :
    (l.dropWhile p).takeWhile p = [] := by
  induction l with
  | nil => rfl
  | cons x xs ih =>
    by_cases hx : p x = true
    · simpa [List.dropWhile_cons, hx] using ih
    · simp only [Bool.not_eq_true] at hx
      simp [List.dropWhile_cons, List.takeWhile_cons, hx]

/-- Helper: the token body `digits . digits %` matches `pctBody`. -/
theorem pctBody_dot (ds1 ds2 : List Char)
    (h1 : ∀ c ∈ ds1, c.isDigit = true) (hne : ds1 ≠ [])
    (h2 : ∀ c ∈ ds2, c.isDigit = true) :
    pctBody (ds1 ++ '.' :: (ds2 ++ ['%'])) = true := by
  obtain ⟨ht, hd⟩ := takeWhile_append_all ('.' :: (ds2 ++ ['%'])) h1
  obtain ⟨ht2, hd2⟩ := takeWhile_append_all ['%'] h2
  have hdotd : ('.' : Char).isDigit = false := by decide
  have hpctd : ('%' : Char).isDigit = false := by decide
  simp only [pctBody, ht, hd, List.takeWhile_cons, List.dropWhile_cons, hdotd,
    Bool.false_eq_true, if_false, List.append_nil, List.head?_cons, List.tail_cons, hd2,
    if_true, Bool.and_eq_true, Bool.not_eq_eq_eq_not, Bool.not_true]
  constructor
  · simpa [List.isEmpty_iff] using hne
  · simp [hpctd]

/-- Helper: the token body `digits %` matches `pctBody`. -/
theorem pctBody_nodot (ds1 : List Char)
    (h1 : ∀ c ∈ ds1, c.isDigit = true) (hne : ds1 ≠ []) :
    pctBody (ds1 ++ ['%']) = true := by
  obtain ⟨ht, hd⟩ := takeWhile_append_all ['%'] h1
  have hpctd : ('%' : Char).isDigit = false := by decide
  have hpd : ¬ (('%' : Char) = '.') := by decide
  simp only [pctBody, ht, hd, List.takeWhile_cons, List.dropWhile_cons, hpctd,
    Bool.false_eq_true, if_false, List.append_nil, List.head?_cons,
    Bool.and_eq_true]
  constructor
  · simpa [List.isEmpty_iff] using hne
  · simp [hpd, List.dropWhile_cons, hpctd]

/-- Helper: every token produced by `matchPctAt` matches the pattern
`-?\d+\.?\d*%`. -/
theorem matchPctAt_shape {l tok rest : List Char}
    (h : matchPctAt l = some (tok, rest)) : isPctShape tok = true := by
  unfold matchPctAt at h
  by_cases hs : l.head? = some '-' <;>
    simp only [hs, if_true, if_false, ite_true, ite_false] at h
  case pos =>
    by_cases hds : (l.tail.takeWhile (·.isDigit)).isEmpty <;>
      simp only [hds, if_true, if_false, ite_true, ite_false] at h
    case pos => exact absurd h (by simp)
    case neg =>
      have hne : l.tail.takeWhile (·.isDigit) ≠ [] := by
        simpa [List.isEmpty_iff] using hds
      have hmem : ∀ c ∈ l.tail.takeWhile (·.isDigit), c.isDigit = true :=
        fun c hc => List.mem_takeWhile_imp hc
      by_cases hdot : ((l.tail.dropWhile (·.isDigit)).head? = some '.') <;>
        simp only [hdot, if_true, if_false, ite_true, ite_false] at h
      case pos =>
        set l3 := (l.tail.dropWhile (·.isDigit)).tail with hl3
        by_cases hp : ((l3.dropWhile (·.isDigit)).head? = some '%') <;>
          simp only [hp, if_true, if_false, ite_true, ite_false] at h
        case pos =>
          obtain ⟨htok, -⟩ := Prod.mk.injEq .. ▸ Option.some.injEq .. ▸ h
          subst htok
          have hmem2 : ∀ c ∈ l3.takeWhile (·.isDigit), c.isDigit = true :=
            fun c hc => List.mem_takeWhile_imp hc
          show isPctShape (['-'] ++ _ ++ ['.'] ++ _ ++ ['%']) = true
          simp only [isPctShape, List.cons_append, List.nil_append, List.head?_cons,
            List.tail_cons, if_true, ite_true]
          rw [show l.tail.takeWhile (·.isDigit) ++ ['.'] ++ l3.takeWhile (·.isDigit) ++ ['%'] =
            l.tail.takeWhile (·.isDigit) ++ '.' :: (l3.takeWhile (·.isDigit) ++ ['%']) by simp]
          exact pctBody_dot _ _ hmem hne hmem2
        case neg => exact absurd h (by simp)
      case neg =>
        by_cases hp : (((l.tail.dropWhile (·.isDigit)).dropWhile (·.isDigit)).head? = some '%') <;>
          simp only [hp, if_true, if_false, ite_true, ite_false] at h
        case pos =>
          obtain ⟨htok, -⟩ := Prod.mk.injEq .. ▸ Option.some.injEq .. ▸ h
          subst htok
          show isPctShape (['-'] ++ _ ++ [] ++ _ ++ ['%']) = true
          rw [takeWhile_dropWhile_nil]
          simp only [isPctShape, List.cons_append, List.nil_append, List.append_nil,
            List.head?_cons, List.tail_cons, if_true, ite_true]
          exact pctBody_nodot _ hmem hne
        case neg => exact absurd h (by simp)
  case neg =>
    by_cases hds : (l.takeWhile (·.isDigit)).isEmpty <;>
      simp only [hds, if_true, if_false, ite_true, ite_false] at h
    case pos => exact absurd h (by simp)
    case neg =>
      have hne : l.takeWhile (·.isDigit) ≠ [] := by
        simpa [List.isEmpty_iff] using hds
      have hmem : ∀ c ∈ l.takeWhile (·.isDigit), c.isDigit = true :=
        fun c hc => List.mem_takeWhile_imp hc
      obtain ⟨a, A, hA⟩ := List.exists_cons_of_ne_nil hne
      have haD : a.isDigit = true := hmem a (hA ▸ List.mem_cons_self a A)
      have haNe : ¬ (a = '-') := fun hc => by
        rw [hc] at haD
        exact absurd haD (by decide)
      by_cases hdot : ((l.dropWhile (·.isDigit)).head? = some '.') <;>
        simp only [hdot, if_true, if_false, ite_true, ite_false] at h
      case pos =>
        set l3 := (l.dropWhile (·.isDigit)).tail with hl3
        by_cases hp : ((l3.dropWhile (·.isDigit)).head? = some '%') <;>
          simp only [hp, if_true, if_false, ite_true, ite_false] at h
        case pos =>
          obtain ⟨htok, -⟩ := Prod.mk.injEq .. ▸ Option.some.injEq .. ▸ h
          subst htok
          have hmem2 : ∀ c ∈ l3.takeWhile (·.isDigit), c.isDigit = true :=
            fun c hc => List.mem_takeWhile_imp hc
          show isPctShape ([] ++ _ ++ ['.'] ++ _ ++ ['%']) = true
          simp only [isPctShape, List.nil_append]
          rw [show (l.takeWhile (·.isDigit) ++ ['.'] ++ l3.takeWhile (·.isDigit) ++ ['%']).head? =
              some a by rw [hA]; simp]
          rw [if_neg (by simpa using haNe)]
          rw [show l.takeWhile (·.isDigit) ++ ['.'] ++ l3.takeWhile (·.isDigit) ++ ['%'] =
            l.takeWhile (·.isDigit) ++ '.' :: (l3.takeWhile (·.isDigit) ++ ['%']) by simp]
          exact pctBody_dot _ _ hmem hne hmem2
        case neg => exact absurd h (by simp)
      case neg =>
        by_cases hp : (((l.dropWhile (·.isDigit)).dropWhile (·.isDigit)).head? = some '%') <;>
          simp only [hp, if_true, if_false, ite_true, ite_false] at h
        case pos =>
          obtain ⟨htok, -⟩ := Prod.mk.injEq .. ▸ Option.some.injEq .. ▸ h
          subst htok
          show isPctShape ([] ++ _ ++ [] ++ _ ++ ['%']) = true
          rw [takeWhile_dropWhile_nil]
          simp only [isPctShape, List.nil_append, List.append_nil]
          rw [show (l.takeWhile (·.isDigit) ++ ['%']).head? = some a by rw [hA]; simp]
          rw [if_neg (by simpa using haNe)]
          exact pctBody_nodot _ hmem hne
        case neg => exact absurd h (by simp)

/-- Helper: every token produced by the findall scan matches the
pattern. -/
theorem findallPctAux_shape :
    ∀ (fuel : ℕ) (l : List Char) (tok : String),
      tok ∈ findallPctAux fuel l → isPctShape tok.data = true := by
  intro fuel
  induction fuel with
  | zero =>
    intro l tok h
    simp [findallPctAux] at h
  | succ n ih =>
    intro l tok h
    match l with
    | [] => simp [findallPctAux] at h
    | c :: cs =>
      rw [findallPctAux] at h
      cases hm : matchPctAt (c :: cs) with
      | none =>
        rw [hm] at h
        exact ih cs tok h
      | some pr =>
        obtain ⟨t, rest⟩ := pr
        rw [hm] at h
        rcases List.mem_cons.mp h with h1 | h1
        · subst h1
          exact matchPctAt_shape hm
        · exact ih rest tok h1

/-- C7: the record builder splits the raw compound-surprise string by
scanning for all non-overlapping `%`-tokens left to right (each matching
`-?\d+\.?\d*%`): the first token becomes `eps_surpr`, the second
`sales_surpr`, and a field with no corresponding token is `"-"`; in
particular `"6.24%3.88%"` splits as stated and the placeholder `"-"`
yields `"-"` for both. -/
theorem surprise_split_spec :
    (∀ (t : String) (fund : List (String × String)),
      (build_stock_record ⟨t, fund⟩).eps_surpr =
        ((findallPct (safe_get fund ["EPS/Sales Surpr."])).get? 0).getD "-" ∧
      (build_stock_record ⟨t, fund⟩).sales_surpr =
        ((findallPct (safe_get fund ["EPS/Sales Surpr."])).get? 1).getD "-") ∧
    (∀ s : String, ∀ tok ∈ findallPct s, isPctShape tok.data = true) ∧
    findallPct "6.24%3.88%" = ["6.24%", "3.88%"] ∧
    findallPct "-" = [] ∧
    findallPct "" = [] := by
  refine ⟨?_, ?_, by decide, by decide, by decide⟩
  · intro t fund
    obtain ⟨h1, h2⟩ := build_surpr_eq ⟨t, fund⟩
    rw [rawRecord_fundament] at h1 h2
    by_cases hg : safe_get fund ["EPS/Sales Surpr."] ≠ "" ∧
        safe_get fund ["EPS/Sales Surpr."] ∉ ["-", ""]
    · rw [h1, h2, if_pos hg]
      exact ⟨rfl, rfl⟩
    · rw [h1, h2, if_neg hg]
      have hcase : safe_get fund ["EPS/Sales Surpr."] = "" ∨
          safe_get fund ["EPS/Sales Surpr."] = "-" := by
        by_contra hc
        push_neg at hc
        exact hg ⟨hc.1, by simp [hc.1, hc.2]⟩
      rcases hcase with h | h <;> rw [h] <;> exact ⟨rfl, rfl⟩
  · intro s tok h
    exact findallPctAux_shape _ _ _ h

/-- C7 witness: the shape lemma applied to a produced token, and the
builder wiring applied on an empty snapshot (raw value `"-"`). -/
theorem surprise_split_spec_witness :
    isPctShape ("6.24%" : String).data = true ∧
    (build_stock_record ⟨"T", []⟩).eps_surpr =
      ((findallPct (safe_get [] ["EPS/Sales Surpr."])).get? 0).getD "-" :=
  ⟨surprise_split_spec.2.1 "6.24%3.88%" "6.24%" (by decide),
   (surprise_split_spec.1 "T" []).1⟩

/-- Helper: the scan of a single-token list is the token's coercion. -/
theorem first_numeric_singleton (v : String) : first_numeric [v] = numTok v := by
  cases h : numTok v <;> simp [first_numeric, h]

/-- Helper: evaluation of a token coercion through the parsed parts. -/
theorem numTok_eval (v : String) (neg : Bool) (n d : ℕ)
    (hc : pyStrip v ≠ "" ∧ pyStrip v ∉ ["-", "N/A", ""])
    (hp : pyFloatParts? (pyStrip v) = some (neg, n, d)) :
    numTok v = some ((if neg then -(n : ℚ) else (n : ℚ)) / (d : ℚ)) := by
  simp only [numTok, if_pos hc]
  rw [pyFloat?_eq_map, hp]
  rfl

/-- Helper: the non-degenerate branch of `calc_yoy`. -/
theorem calc_yoy_some (c p : ℚ) (hp : p ≠ 0) :
    calc_yoy (some c) (some p) = fmt_pct (some ((c - p) / |p| * 100)) := by
  simp [calc_yoy, hp]

/-- Helper: round-half-even when the fractional part is below one half. -/
theorem rhe_eval_down (q : ℚ) (f : ℤ) (hf : ⌊q⌋ = f) (hr : q - f < 1/2) :
    rhe q = f := by
  simp only [rhe, hf]
  rw [if_pos hr]

/-- Helper: evaluation of `fmt_pct` at a non-negative value with a known
rounding. -/
theorem fmt_pct_eval_nonneg (v : ℚ) (m : ℕ)
    (h0 : ¬ v < 0) (hm : rhe (|v| * 10 ^ 1) = (m : ℤ)) :
    fmt_pct (some v) = "+" ++ toString (m / 10) ++ "." ++ padNat 1 (m % 10) ++ "%" := by
  simp only [fmt_pct, if_neg h0, hm, Int.toNat_natCast]
  norm_num

/-- Helper: full evaluation of `calc_yoy` at concrete non-negative
growth values whose scaled fractional part is below one half. -/
theorem calc_yoy_val (c p v : ℚ) (m : ℕ)
    (hp : p ≠ 0) (hv : (c - p) / |p| * 100 = v) (h0 : ¬ v < 0)
    (hfl : ⌊v * 10⌋ = (m : ℤ)) (hr : v * 10 - ((m : ℤ) : ℚ) < 1/2) :
    calc_yoy (some c) (some p) =
      "+" ++ toString (m / 10) ++ "." ++ padNat 1 (m % 10) ++ "%" := by
  rw [calc_yoy_some c p hp, hv]
  refine fmt_pct_eval_nonneg v m h0 ?_
  have habs : |v| * 10 ^ 1 = v * 10 := by
    rw [abs_of_nonneg (not_lt.mp h0)]
    ring
  rw [habs]
  exact rhe_eval_down (v * 10) m hfl hr

/-- C9: the annual-income parser marks a column as estimate iff its
header (after the leading blank header) ends case-insensitively in `E`,
partitions each resolved row positionally into reported and estimate
subsequences preserving order, and derives the four growth fields from
them independently — the EPS field reads only the EPS row, the revenue
fields only the revenue row, so a missing EPS row does not block the
revenue fields — with `"-"` whenever the required operands are
unavailable, in particular on an absent or empty table. -/
theorem annual_income_spec :
    parse_annual_income none = ⟨"-", "-", "-", "-"⟩ ∧
    parse_annual_income (some ⟨[], []⟩) = ⟨"-", "-", "-", "-"⟩ ∧
    (∀ d : AjaxData,
      (parse_annual_income (some d)).eps_yy_ttm =
        annualEpsField (find_row (ajax_row_map (some d)) ["EPS", "Earnings Per Share"])
          (estFlags d.headers) ∧
      (parse_annual_income (some d)).rev_ann_rep =
        (annualRevFields
          (find_row (ajax_row_map (some d)) ["Revenue", "Total Revenue", "Sales"])
          (estFlags d.headers)).1 ∧
      (parse_annual_income (some d)).rev_ann_est_cur =
        (annualRevFields
          (find_row (ajax_row_map (some d)) ["Revenue", "Total Revenue", "Sales"])
          (estFlags d.headers)).2.1 ∧
      (parse_annual_income (some d)).rev_ann_est_fut =
        (annualRevFields
          (find_row (ajax_row_map (some d)) ["Revenue", "Total Revenue", "Sales"])
          (estFlags d.headers)).2.2) ∧
    (∀ est, annualRevFields none est = ("-", "-", "-")) ∧
    (∀ est, annualEpsField none est = "-") ∧
    (∀ row est flag,
      selVals row est flag =
        ((row.zip est).filter (fun p => p.2 == flag)).map (fun p => first_numeric [p.1]) ∧
      ((row.zip est).filter (fun p => p.2 == flag)).Sublist (row.zip est)) ∧
    ((∀ (h : String) (hs : List String),
      estFlags (h :: hs) = hs.map (fun x => pyEndsWith (pyUpper (pyStrip x)) "E")) ∧
      estFlags ["", "2024", "2025E", "2026e"] = [false, true, true]) ∧
    ((parse_annual_income (some ⟨["", "2022", "2023", "2024E", "2025e"],
        [["Revenue", "100", "110", "132", "165"], ["EPS", "2", "2.09"]]⟩)).eps_yy_ttm =
          "+4.5%" ∧
      (parse_annual_income (some ⟨["", "2022", "2023", "2024E", "2025e"],
        [["Revenue", "100", "110", "132", "165"], ["EPS", "2", "2.09"]]⟩)).rev_ann_rep =
          "+10.0%" ∧
      (parse_annual_income (some ⟨["", "2022", "2023", "2024E", "2025e"],
        [["Revenue", "100", "110", "132", "165"], ["EPS", "2", "2.09"]]⟩)).rev_ann_est_cur =
          "+20.0%" ∧
      (parse_annual_income (some ⟨["", "2022", "2023", "2024E", "2025e"],
        [["Revenue", "100", "110", "132", "165"], ["EPS", "2", "2.09"]]⟩)).rev_ann_est_fut =
          "+25.0%") ∧
    parse_annual_income (some ⟨["", "2022", "2023", "2024E", "2025e"],
        [["Revenue", "100", "110", "132", "165"]]⟩) =
      ⟨"-", "+10.0%", "+20.0%", "+25.0%"⟩ := by
  have t100 : numTok "100" = some (100 : ℚ) := by
    rw [numTok_eval "100" false 100 1 (by decide) (by decide)]
    norm_num
  have t110 : numTok "110" = some (110 : ℚ) := by
    rw [numTok_eval "110" false 110 1 (by decide) (by decide)]
    norm_num
  have t132 : numTok "132" = some (132 : ℚ) := by
    rw [numTok_eval "132" false 132 1 (by decide) (by decide)]
    norm_num
  have t165 : numTok "165" = some (165 : ℚ) := by
    rw [numTok_eval "165" false 165 1 (by decide) (by decide)]
    norm_num
  have t2 : numTok "2" = some (2 : ℚ) := by
    rw [numTok_eval "2" false 2 1 (by decide) (by decide)]
    norm_num
  have t209 : numTok "2.09" = some ((209 : ℚ) / 100) := by
    rw [numTok_eval "2.09" false 209 100 (by decide) (by decide)]
    norm_num
  have hrev1 : (annualRevFields (some ["100", "110", "132", "165"])
      [false, false, true, true]).1 = "+10.0%" := by
    rw [show (annualRevFields (some ["100", "110", "132", "165"])
        [false, false, true, true]).1 =
      calc_yoy (first_numeric ["110"]) (first_numeric ["100"]) from rfl]
    rw [first_numeric_singleton, first_numeric_singleton, t110, t100]
    rw [calc_yoy_val 110 100 10 100 (by norm_num) (by norm_num) (by norm_num)
      (by norm_num) (by norm_num)]
    decide
  have hrev2 : (annualRevFields (some ["100", "110", "132", "165"])
      [false, false, true, true]).2.1 = "+20.0%" := by
    rw [show (annualRevFields (some ["100", "110", "132", "165"])
        [false, false, true, true]).2.1 =
      calc_yoy (first_numeric ["132"]) (first_numeric ["110"]) from rfl]
    rw [first_numeric_singleton, first_numeric_singleton, t132, t110]
    rw [calc_yoy_val 132 110 20 200 (by norm_num) (by norm_num) (by norm_num)
      (by norm_num) (by norm_num)]
    decide
  have hrev3 : (annualRevFields (some ["100", "110", "132", "165"])
      [false, false, true, true]).2.2 = "+25.0%" := by
    rw [show (annualRevFields (some ["100", "110", "132", "165"])
        [false, false, true, true]).2.2 =
      calc_yoy (first_numeric ["165"]) (first_numeric ["132"]) from rfl]
    rw [first_numeric_singleton, first_numeric_singleton, t165, t132]
    rw [calc_yoy_val 165 132 25 250 (by norm_num) (by norm_num) (by norm_num)
      (by norm_num) (by norm_num)]
    decide
  have heps : annualEpsField (some ["2", "2.09"]) [false, false, true, true] = "+4.5%" := by
    rw [show annualEpsField (some ["2", "2.09"]) [false, false, true, true] =
      calc_yoy (first_numeric ["2.09"]) (first_numeric ["2"]) from rfl]
    rw [first_numeric_singleton, first_numeric_singleton, t209, t2]
    rw [calc_yoy_val ((209 : ℚ) / 100) 2 (9 / 2) 45 (by norm_num) (by norm_num)
      (by norm_num) (by norm_num) (by norm_num)]
    decide
  have hrowR : find_row (ajax_row_map (some ⟨["", "2022", "2023", "2024E", "2025e"],
      [["Revenue", "100", "110", "132", "165"], ["EPS", "2", "2.09"]]⟩))
      ["Revenue", "Total Revenue", "Sales"] = some ["100", "110", "132", "165"] := by
    decide
  have hrowE : find_row (ajax_row_map (some ⟨["", "2022", "2023", "2024E", "2025e"],
      [["Revenue", "100", "110", "132", "165"], ["EPS", "2", "2.09"]]⟩))
      ["EPS", "Earnings Per Share"] = some ["2", "2.09"] := by
    decide
  have hrowR2 : find_row (ajax_row_map (some ⟨["", "2022", "2023", "2024E", "2025e"],
      [["Revenue", "100", "110", "132", "165"]]⟩))
      ["Revenue", "Total Revenue", "Sales"] = some ["100", "110", "132", "165"] := by
    decide
  have hrowE2 : find_row (ajax_row_map (some ⟨["", "2022", "2023", "2024E", "2025e"],
      [["Revenue", "100", "110", "132", "165"]]⟩))
      ["EPS", "Earnings Per Share"] = none := by
    decide
  have hflags : estFlags ["", "2022", "2023", "2024E", "2025e"] =
      [false, false, true, true] := by
    decide
  refine ⟨rfl, rfl, fun d => ⟨rfl, rfl, rfl, rfl⟩, fun est => rfl, fun est => rfl,
    fun row est flag => ⟨rfl, List.filter_sublist _⟩,
    ⟨fun h hs => by simp [estFlags, List.map_map, Function.comp], by decide⟩,
    ⟨?_, ?_, ?_, ?_⟩, ?_⟩
  · rw [show (parse_annual_income (some ⟨["", "2022", "2023", "2024E", "2025e"],
        [["Revenue", "100", "110", "132", "165"], ["EPS", "2", "2.09"]]⟩)).eps_yy_ttm =
      annualEpsField (find_row (ajax_row_map (some ⟨["", "2022", "2023", "2024E", "2025e"],
        [["Revenue", "100", "110", "132", "165"], ["EPS", "2", "2.09"]]⟩))
        ["EPS", "Earnings Per Share"])
        (estFlags ["", "2022", "2023", "2024E", "2025e"]) from rfl, hrowE, hflags]
    exact heps
  · rw [show (parse_annual_income (some ⟨["", "2022", "2023", "2024E", "2025e"],
        [["Revenue", "100", "110", "132", "165"], ["EPS", "2", "2.09"]]⟩)).rev_ann_rep =
      (annualRevFields (find_row (ajax_row_map (some ⟨["", "2022", "2023", "2024E", "2025e"],
        [["Revenue", "100", "110", "132", "165"], ["EPS", "2", "2.09"]]⟩))
        ["Revenue", "Total Revenue", "Sales"])
        (estFlags ["", "2022", "2023", "2024E", "2025e"])).1 from rfl, hrowR, hflags]
    exact hrev1
  · rw [show (parse_annual_income (some ⟨["", "2022", "2023", "2024E", "2025e"],
        [["Revenue", "100", "110", "132", "165"], ["EPS", "2", "2.09"]]⟩)).rev_ann_est_cur =
      (annualRevFields (find_row (ajax_row_map (some ⟨["", "2022", "2023", "2024E", "2025e"],
        [["Revenue", "100", "110", "132", "165"], ["EPS", "2", "2.09"]]⟩))
        ["Revenue", "Total Revenue", "Sales"])
        (estFlags ["", "2022", "2023", "2024E", "2025e"])).2.1 from rfl, hrowR, hflags]
    exact hrev2
  · rw [show (parse_annual_income (some ⟨["", "2022", "2023", "2024E", "2025e"],
        [["Revenue", "100", "110", "132", "165"], ["EPS", "2", "2.09"]]⟩)).rev_ann_est_fut =
      (annualRevFields (find_row (ajax_row_map (some ⟨["", "2022", "2023", "2024E", "2025e"],
        [["Revenue", "100", "110", "132", "165"], ["EPS", "2", "2.09"]]⟩))
        ["Revenue", "Total Revenue", "Sales"])
        (estFlags ["", "2022", "2023", "2024E", "2025e"])).2.2 from rfl, hrowR, hflags]
    exact hrev3
  · have hx : parse_annual_income (some ⟨["", "2022", "2023", "2024E", "2025e"],
        [["Revenue", "100", "110", "132", "165"]]⟩) =
      ⟨annualEpsField (find_row (ajax_row_map (some ⟨["", "2022", "2023", "2024E", "2025e"],
          [["Revenue", "100", "110", "132", "165"]]⟩)) ["EPS", "Earnings Per Share"])
          (estFlags ["", "2022", "2023", "2024E", "2025e"]),
        (annualRevFields (find_row (ajax_row_map (some ⟨["", "2022", "2023", "2024E", "2025e"],
          [["Revenue", "100", "110", "132", "165"]]⟩)) ["Revenue", "Total Revenue", "Sales"])
          (estFlags ["", "2022", "2023", "2024E", "2025e"])).1,
        (annualRevFields (find_row (ajax_row_map (some ⟨["", "2022", "2023", "2024E", "2025e"],
          [["Revenue", "100", "110", "132", "165"]]⟩)) ["Revenue", "Total Revenue", "Sales"])
          (estFlags ["", "2022", "2023", "2024E", "2025e"])).2.1,
        (annualRevFields (find_row (ajax_row_map (some ⟨["", "2022", "2023", "2024E", "2025e"],
          [["Revenue", "100", "110", "132", "165"]]⟩)) ["Revenue", "Total Revenue", "Sales"])
          (estFlags ["", "2022", "2023", "2024E", "2025e"])).2.2⟩ := rfl
    rw [hx, hrowR2, hrowE2, hflags]
    rw [show annualEpsField none [false, false, true, true] = "-" from rfl,
      hrev1, hrev2, hrev3]

end Scraper
